import Mathlib

/-!
# steampipe-plugin-prismacloud: table `prismacloud_prioritized_vulnerabilitiy`

A shallow embedding of `prismacloud/table_prismacloud_prioritized_vulnerabilitiy.go`:

* the table descriptor `tablePrismaPrioritizedVulnerabilitiy` (list config, key columns,
  fourteen columns with their types and transform chains), as plain data;
* the list hydrate function `getPrismaPrioritizedVulnerabilities`, as a state-passing
  function over an explicit effect history (collaborator calls, log entries, streamed rows).

The collaborators the hydrate function calls (`connect`,
`buildPrioritizedVulnerabilitiesQueryParameter`, `api.GetPrioritizedVulnerability`) are
taken as parameters.
-/

namespace Prismacloud

/-! ## SDK data types used by the descriptor -/

/-- Column types of `proto.ColumnType`. -/
inductive ColumnType
  | BOOL | INT | DOUBLE | STRING | JSON | DATETIME | IPADDR | CIDR | TIMESTAMP | INET | LTREE
  | UNKNOWN
  deriving DecidableEq, Repr

/-- Requirement levels of a key column (`plugin.Required`, `plugin.Optional`, `plugin.AnyOf`). -/
inductive Require
  | Required | Optional | AnyOf
  deriving DecidableEq, Repr

/-- Cache matching modes of a key column (`query_cache.CacheMatchSubset`,
`query_cache.CacheMatchExact`). -/
inductive CacheMatch
  | CacheMatchSubset | CacheMatchExact
  deriving DecidableEq, Repr

/-- One entry of `plugin.KeyColumnSlice`. -/
structure KeyColumn where
  Name : String
  Require : Require
  CacheMatch : CacheMatch
  deriving DecidableEq, Repr

/-- One step of a transform chain (`transform.TransformCall`): the transform function
together with its parameter, where it takes one. -/
inductive TransformCall
  | FieldValue (fieldPath : String)
  | QualValue (qual : String)
  | NullIfZeroValue
  | UnixMsToTimestamp
  deriving DecidableEq, Repr

/-- Chain of transform steps of a column (`transform.ColumnTransforms`). -/
structure ColumnTransforms where
  Transforms : List TransformCall
  deriving DecidableEq, Repr

namespace transform

/-- Go `transform.FromField(path)`: a chain starting with a field lookup. -/
def FromField (fieldPath : String) : ColumnTransforms :=
  ⟨[TransformCall.FieldValue fieldPath]⟩

/-- Go `transform.FromQual(qual)`: a chain starting with a qualifier lookup. -/
def FromQual (qual : String) : ColumnTransforms :=
  ⟨[TransformCall.QualValue qual]⟩

end transform

/-- Go `(*ColumnTransforms).Transform(f)`: append one step to the chain. -/
def ColumnTransforms.Transform (t : ColumnTransforms) (f : TransformCall) : ColumnTransforms :=
  ⟨t.Transforms ++ [f]⟩

/-- One entry of `plugin.Table.Columns`; `Type_` is the Go field `Type`, and `Transform` is
`none` where the source leaves the field unset. -/
structure Column where
  Name : String
  Description : String
  Type_ : ColumnType
  Transform : Option ColumnTransforms
  deriving DecidableEq, Repr

/-! ## Effects of the hydrate function -/

/-- Log levels of the plugin logger. -/
inductive Level
  | Trace | Debug | Info | Warn | Error
  deriving DecidableEq, Repr

/-- Arguments passed to a logger call after the message. -/
inductive LogArg (Query Err : Type)
  | str (s : String)
  | query (q : Query)
  | err (e : Err)
  deriving DecidableEq, Repr

/-- Everything the hydrate function does to the outside, in the order it does it. -/
inductive Event (QD Conn Query Item Err : Type)
  | connect (d : QD)
  | buildQuery (d : QD)
  | log (lvl : Level) (msg : String) (args : List (LogArg Query Err))
  | apiCall (conn : Conn) (q : Query)
  | streamListItem (item : Item)
  deriving DecidableEq, Repr

/-- The functions of the package the hydrate function calls and that live in other files:
`connect`, `buildPrioritizedVulnerabilitiesQueryParameter` and
`api.GetPrioritizedVulnerability`. A Go result pair `(x, err)` is an `Except`. -/
structure Collaborators (QD Conn Query Item Err : Type) where
  connect : QD → Except Err Conn
  buildPrioritizedVulnerabilitiesQueryParameter : QD → Query
  GetPrioritizedVulnerability : Conn → Query → Except Err Item

/-- The Go result pair `(interface, error)` of a hydrate function. -/
structure HydrateResult (Item Err : Type) where
  value : Option Item
  err : Option Err
  deriving DecidableEq, Repr

section Hydrate

variable {QD Conn Query Item Err : Type}

/-- History of effects so far. -/
abbrev History (QD Conn Query Item Err : Type) := List (Event QD Conn Query Item Err)

/-- Go `plugin.Logger(ctx).Error(msg, args...)`: append one Error-level entry. -/
def loggerError (msg : String) (args : List (LogArg Query Err))
    (h : History QD Conn Query Item Err) : History QD Conn Query Item Err :=
  h ++ [Event.log Level.Error msg args]

/-- Go `d.StreamListItem(ctx, item)`: stream one row. -/
def StreamListItem (item : Item)
    (h : History QD Conn Query Item Err) : History QD Conn Query Item Err :=
  h ++ [Event.streamListItem item]

/-- The list hydrate function, lines 116-135 of the source. -/
def getPrismaPrioritizedVulnerabilities (env : Collaborators QD Conn Query Item Err)
    (d : QD) (h : History QD Conn Query Item Err) :
    HydrateResult Item Err × History QD Conn Query Item Err :=
  let h := h ++ [Event.connect d]
  match env.connect d with
  | Except.error err =>
    let h := loggerError
      "prismacloud_prioritized_vulnerabilitiy.getPrismaPrioritizedVulnerabilities"
      [LogArg.str "connection_error", LogArg.err err] h
    (⟨none, some err⟩, h)
  | Except.ok conn =>
    let h := h ++ [Event.buildQuery d]
    let query := env.buildPrioritizedVulnerabilitiesQueryParameter d
    let h := loggerError "Query ====>>>" [LogArg.query query] h
    let h := h ++ [Event.apiCall conn query]
    match env.GetPrioritizedVulnerability conn query with
    | Except.error err =>
      let h := loggerError
        "prismacloud_prioritized_vulnerabilitiy.getPrismaPrioritizedVulnerabilities"
        [LogArg.str "api_error", LogArg.err err] h
      (⟨none, some err⟩, h)
    | Except.ok vulnerability =>
      let h := StreamListItem vulnerability h
      (⟨none, none⟩, h)

/-- The event is a build of the query parameter. -/
def Event.isBuildQuery : Event QD Conn Query Item Err → Bool
  | Event.buildQuery _ => true
  | _ => false

/-- The event is a call of `api.GetPrioritizedVulnerability`. -/
def Event.isApiCall : Event QD Conn Query Item Err → Bool
  | Event.apiCall _ _ => true
  | _ => false

/-- The event is a streamed list item. -/
def Event.isStream : Event QD Conn Query Item Err → Bool
  | Event.streamListItem _ => true
  | _ => false

/-- The event is a log entry at level Error. -/
def Event.isErrorLog : Event QD Conn Query Item Err → Bool
  | Event.log Level.Error _ _ => true
  | _ => false

/-- Number of Error-level log entries in a history. -/
def errorLogCount (h : History QD Conn Query Item Err) : Nat :=
  h.countP (fun ev => ev.isErrorLog)

/-- The rows streamed so far, oldest first. -/
def streamed : History QD Conn Query Item Err → List Item
  | [] => []
  | Event.streamListItem item :: h => item :: streamed h
  | _ :: h => streamed h

/-- The API calls made so far, oldest first. -/
def apiCalls : History QD Conn Query Item Err → List (Conn × Query)
  | [] => []
  | Event.apiCall conn q :: h => (conn, q) :: apiCalls h
  | _ :: h => apiCalls h

end Hydrate

/-! ## The table descriptor -/

/-- The `plugin.ListConfig` fields the source sets. -/
structure ListConfig (H : Type) where
  Hydrate : H
  KeyColumns : List KeyColumn

/-- The `plugin.Table` fields the descriptor is about; `DefaultTransform` is the table-level
fallback chain for columns that declare none. -/
structure Table (H : Type) where
  Name : String
  Description : String
  Columns : List Column
  DefaultTransform : Option ColumnTransforms
  List : Option (ListConfig H)

/-- Type of a list hydrate function over the effect history. -/
abbrev HydrateFunc (QD Conn Query Item Err : Type) :=
  QD → History QD Conn Query Item Err →
    HydrateResult Item Err × History QD Conn Query Item Err

/-- The `Columns` slice of the descriptor, lines 26-110 of the source. -/
def tableColumns : List Column :=
  [ { Name := "asset_type"
      Description := "The type of asset. Possible values are: iac, package, deployedImage, serverlessFunction, host, registryImage, vmImage."
      Type_ := ColumnType.STRING
      Transform := some (transform.FromQual "asset_type") },
    { Name := "life_cycle"
      Description := "The life cycle stage of the asset. Possible values are: code, build, deploy, run."
      Type_ := ColumnType.STRING
      Transform := some (transform.FromQual "life_cycle") },
    { Name := "last_updated_date_time"
      Description := "The timestamp when the data was last updated."
      Type_ := ColumnType.TIMESTAMP
      Transform := some (((transform.FromField "LastUpdatedDateTime").Transform
        TransformCall.NullIfZeroValue).Transform TransformCall.UnixMsToTimestamp) },
    { Name := "total_vulnerabilities"
      Description := "The total number of vulnerabilities."
      Type_ := ColumnType.INT
      Transform := none },
    { Name := "urgent_vulnerability_count"
      Description := "The number of urgent vulnerabilities."
      Type_ := ColumnType.INT
      Transform := some (transform.FromField "Urgent.VulnerabilityCount") },
    { Name := "urgent_asset_count"
      Description := "The number of assets with urgent vulnerabilities."
      Type_ := ColumnType.INT
      Transform := some (transform.FromField "Urgent.AssetCount") },
    { Name := "patchable_vulnerability_count"
      Description := "The number of patchable vulnerabilities."
      Type_ := ColumnType.INT
      Transform := some (transform.FromField "Patchable.VulnerabilityCount") },
    { Name := "patchable_asset_count"
      Description := "The number of assets with patchable vulnerabilities."
      Type_ := ColumnType.INT
      Transform := some (transform.FromField "Patchable.AssetCount") },
    { Name := "exploitable_vulnerability_count"
      Description := "The number of exploitable vulnerabilities."
      Type_ := ColumnType.INT
      Transform := some (transform.FromField "Exploitable.VulnerabilityCount") },
    { Name := "exploitable_asset_count"
      Description := "The number of assets with exploitable vulnerabilities."
      Type_ := ColumnType.INT
      Transform := some (transform.FromField "Exploitable.AssetCount") },
    { Name := "internet_exposed_vulnerability_count"
      Description := "The number of internet-exposed vulnerabilities."
      Type_ := ColumnType.INT
      Transform := some (transform.FromField "InternetExposed.VulnerabilityCount") },
    { Name := "internet_exposed_asset_count"
      Description := "The number of assets with internet-exposed vulnerabilities."
      Type_ := ColumnType.INT
      Transform := some (transform.FromField "InternetExposed.AssetCount") },
    { Name := "package_in_use_vulnerability_count"
      Description := "The number of vulnerabilities in packages currently in use."
      Type_ := ColumnType.INT
      Transform := some (transform.FromField "PackageInUse.VulnerabilityCount") },
    { Name := "package_in_use_asset_count"
      Description := "The number of assets with vulnerabilities in packages currently in use."
      Type_ := ColumnType.INT
      Transform := some (transform.FromField "PackageInUse.AssetCount") } ]

/-- The `KeyColumns` slice of the list config, lines 21-24 of the source. -/
def tableKeyColumns : List KeyColumn :=
  [ { Name := "asset_type", Require := Require.Required,
      CacheMatch := CacheMatch.CacheMatchExact },
    { Name := "life_cycle", Require := Require.Required,
      CacheMatch := CacheMatch.CacheMatchExact } ]

/-- The table descriptor, lines 15-112 of the source. -/
def tablePrismaPrioritizedVulnerabilitiy {QD Conn Query Item Err : Type}
    (env : Collaborators QD Conn Query Item Err) :
    Table (HydrateFunc QD Conn Query Item Err) :=
  { Name := "prismacloud_prioritized_vulnerabilitiy"
    Description := "Returns the top-priority vulnerabilities which are aggregated based on the most urgent, exploitable, patchable, and vulnerable packages in use along with the number of assets they occur in."
    List := some
      { Hydrate := getPrismaPrioritizedVulnerabilities env
        KeyColumns := tableKeyColumns }
    DefaultTransform := none
    Columns := tableColumns }

/-- Columns of a list carrying the given name. -/
def columnsNamed (cols : List Column) (name : String) : List Column :=
  cols.filter (fun c => c.Name = name)

/-- First step of a column's transform chain, if it declares one. -/
def Column.firstCall (c : Column) : Option TransformCall :=
  match c.Transform with
  | none => none
  | some t => t.Transforms.head?

/-- The column's chain starts with a qualifier lookup. -/
def Column.isFromQual (c : Column) : Bool :=
  match c.firstCall with
  | some (TransformCall.QualValue _) => true
  | _ => false

/-- The column's chain starts with a field lookup. -/
def Column.isFromField (c : Column) : Bool :=
  match c.firstCall with
  | some (TransformCall.FieldValue _) => true
  | _ => false

/-! ## Rows: running a transform chain on a response record -/

/-- Modelled from the spec: one nested counter pair of the response record (its Go type is
declared in package `api`, outside the file embedded here); the field names are the ones
the descriptor's field paths select. -/
structure VulnerabilityCounter where
  VulnerabilityCount : Int
  AssetCount : Int
  deriving DecidableEq, Repr

/-- Modelled from the spec: the aggregate record returned by
`api.GetPrioritizedVulnerability` (its Go type is declared in package `api`, outside the
file embedded here): a last-update time in Unix milliseconds, a total, and five nested
counter pairs. -/
structure PrioritizedVulnerability where
  LastUpdatedDateTime : Int
  TotalVulnerabilities : Int
  Urgent : VulnerabilityCounter
  Patchable : VulnerabilityCounter
  Exploitable : VulnerabilityCounter
  InternetExposed : VulnerabilityCounter
  PackageInUse : VulnerabilityCounter
  deriving DecidableEq, Repr

/-- Values a transform step consumes and produces. `timestamp ms` is the instant `ms`
milliseconds after the Unix epoch. -/
inductive Value
  | null
  | int (i : Int)
  | str (s : String)
  | timestamp (ms : Int)
  deriving DecidableEq, Repr

/-- Lookup of one counter field by name. -/
def VulnerabilityCounter.field (c : VulnerabilityCounter) (name : String) : Option Value :=
  if name = "VulnerabilityCount" then some (Value.int c.VulnerabilityCount)
  else if name = "AssetCount" then some (Value.int c.AssetCount)
  else none

/-- Segments of a dotted field path. -/
def pathSegments : List Char → List String
  | [] => [""]
  | c :: cs =>
    match pathSegments cs with
    | [] => [String.mk [c]]
    | seg :: rest => if c = '.' then "" :: seg :: rest else String.mk (c :: seg.data) :: rest

/-- Lookup of a dotted field path in the response record, as `FieldValue` does by
reflection; `none` when the path names no field. -/
def PrioritizedVulnerability.field (v : PrioritizedVulnerability) (path : String) :
    Option Value :=
  match pathSegments path.data with
  | [f] =>
    if f = "LastUpdatedDateTime" then some (Value.int v.LastUpdatedDateTime)
    else if f = "TotalVulnerabilities" then some (Value.int v.TotalVulnerabilities)
    else none
  | [f, g] =>
    if f = "Urgent" then v.Urgent.field g
    else if f = "Patchable" then v.Patchable.field g
    else if f = "Exploitable" then v.Exploitable.field g
    else if f = "InternetExposed" then v.InternetExposed.field g
    else if f = "PackageInUse" then v.PackageInUse.field g
    else none
  | _ => none

/-- The two value-to-value transform functions of the SDK the descriptor chains; their
behaviour is a parameter of the row semantics. -/
structure TransformFuncs where
  NullIfZeroValue : Value → Value
  UnixMsToTimestamp : Value → Value

/-- What a transform step sees (`transform.TransformData`): the hydrate item, the equality
qualifiers of the query, and the value produced by the previous step. -/
structure TransformData where
  HydrateItem : PrioritizedVulnerability
  KeyColumnQuals : String → Value
  Value : Value

/-- Run one step of a chain; `none` is the step failing. -/
def TransformCall.Execute (fs : TransformFuncs) (call : TransformCall) (d : TransformData) :
    Option Value :=
  match call with
  | TransformCall.FieldValue fieldPath => d.HydrateItem.field fieldPath
  | TransformCall.QualValue qual => some (d.KeyColumnQuals qual)
  | TransformCall.NullIfZeroValue => some (fs.NullIfZeroValue d.Value)
  | TransformCall.UnixMsToTimestamp => some (fs.UnixMsToTimestamp d.Value)

/-- Run the steps of a chain in order, each on the value of the one before. -/
def executeCalls (fs : TransformFuncs) (item : PrioritizedVulnerability)
    (quals : String → Value) : List TransformCall → Value → Option Value
  | [], value => some value
  | call :: rest, value =>
    match call.Execute fs ⟨item, quals, value⟩ with
    | none => none
    | some value => executeCalls fs item quals rest value

/-- Go `(*ColumnTransforms).Execute`: run the whole chain, starting from the nil value. -/
def ColumnTransforms.Execute (fs : TransformFuncs) (t : ColumnTransforms)
    (item : PrioritizedVulnerability) (quals : String → Value) : Option Value :=
  executeCalls fs item quals t.Transforms Value.null

/-- Value of a column in the row built from a hydrate item: the column's own chain run on
the item; `none` when the column declares no chain (its value then comes from a default
outside the column) or when a step fails. -/
def Column.value (c : Column) (fs : TransformFuncs) (item : PrioritizedVulnerability)
    (quals : String → Value) : Option Value :=
  match c.Transform with
  | none => none
  | some t => t.Execute fs item quals

/-! ## Naming convention of the counter columns -/

/-- Snake case of a camel-case identifier: every capital letter is lowered, and every
capital letter but the first character is preceded by an underscore. -/
def snakeCaseChars : Bool → List Char → List Char
  | _, [] => []
  | first, c :: cs =>
    if c.isUpper && !first then '_' :: c.toLower :: snakeCaseChars false cs
    else c.toLower :: snakeCaseChars false cs

/-- Snake case of a field path with its dots removed. -/
def snakeCaseOfPath (path : String) : String :=
  String.mk (snakeCaseChars true (path.data.filter (fun c => c != '.')))

/-- The field path a column reads, when its chain is a single field lookup. -/
def Column.fieldPath (c : Column) : Option String :=
  match c.Transform with
  | some ⟨[TransformCall.FieldValue p]⟩ => some p
  | _ => none

/-- The five counter categories: column-name stem and response field. -/
def counterCategories : List (String × String) :=
  [ ("urgent", "Urgent"), ("patchable", "Patchable"), ("exploitable", "Exploitable"),
    ("internet_exposed", "InternetExposed"), ("package_in_use", "PackageInUse") ]

/-- The ten counter columns: the last ten entries of the column list. -/
def counterColumns : List Column :=
  tableColumns.filter (fun c => c.isFromField && c.Type_ = ColumnType.INT)

/-! ## Concrete collaborators used to instantiate the theorems -/

/-- A sample response record. -/
def sampleRecord : PrioritizedVulnerability :=
  { LastUpdatedDateTime := 1700000000000
    TotalVulnerabilities := 42
    Urgent := ⟨1, 2⟩
    Patchable := ⟨3, 4⟩
    Exploitable := ⟨5, 6⟩
    InternetExposed := ⟨7, 8⟩
    PackageInUse := ⟨9, 10⟩ }

/-- Collaborators whose `connect` fails on every query. -/
def envConnectFails : Collaborators Nat Nat String PrioritizedVulnerability String :=
  { connect := fun _ => Except.error "no credentials"
    buildPrioritizedVulnerabilitiesQueryParameter := fun _ => "asset_type=host&life_cycle=run"
    GetPrioritizedVulnerability := fun _ _ => Except.ok sampleRecord }

/-- Collaborators whose `connect` succeeds and whose API call fails. -/
def envApiFails : Collaborators Nat Nat String PrioritizedVulnerability String :=
  { connect := fun d => Except.ok (d + 1)
    buildPrioritizedVulnerabilitiesQueryParameter := fun _ => "asset_type=host&life_cycle=run"
    GetPrioritizedVulnerability := fun _ _ => Except.error "403 Forbidden" }

/-- Collaborators whose `connect` and API call both succeed. -/
def envOk : Collaborators Nat Nat String PrioritizedVulnerability String :=
  { connect := fun d => Except.ok (d + 1)
    buildPrioritizedVulnerabilitiesQueryParameter := fun _ => "asset_type=host&life_cycle=run"
    GetPrioritizedVulnerability := fun _ _ => Except.ok sampleRecord }

/-- Transform functions with the reading the column semantics assumes: zero values become
null, null stays null, an integer becomes the instant that many milliseconds after the
epoch. -/
def sampleTransformFuncs : TransformFuncs :=
  { NullIfZeroValue := fun v =>
      match v with
      | Value.int m => if m = 0 then Value.null else Value.int m
      | Value.str s => if s = "" then Value.null else Value.str s
      | v => v
    UnixMsToTimestamp := fun v =>
      match v with
      | Value.int m => Value.timestamp m
      | Value.timestamp m => Value.timestamp m
      | _ => Value.null }

/-! ## Lemmas on effect histories -/

section HistoryLemmas

variable {QD Conn Query Item Err : Type}

theorem streamed_append (h₁ h₂ : History QD Conn Query Item Err) :
    streamed (h₁ ++ h₂) = streamed h₁ ++ streamed h₂ := by
  induction h₁ with
  | nil => rfl
  | cons ev h₁ ih => cases ev <;> simp [streamed, ih]

theorem apiCalls_append (h₁ h₂ : History QD Conn Query Item Err) :
    apiCalls (h₁ ++ h₂) = apiCalls h₁ ++ apiCalls h₂ := by
  induction h₁ with
  | nil => rfl
  | cons ev h₁ ih => cases ev <;> simp [apiCalls, ih]

/-- Unfolding of the hydrate function when `connect` fails. -/
theorem hydrate_connect_error (env : Collaborators QD Conn Query Item Err) (d : QD)
    (h : History QD Conn Query Item Err) (e : Err) (hc : env.connect d = Except.error e) :
    getPrismaPrioritizedVulnerabilities env d h =
      (⟨none, some e⟩,
        h ++ [Event.connect d,
          Event.log Level.Error
            "prismacloud_prioritized_vulnerabilitiy.getPrismaPrioritizedVulnerabilities"
            [LogArg.str "connection_error", LogArg.err e]]) := by
  simp [getPrismaPrioritizedVulnerabilities, hc, loggerError]

/-- Unfolding of the hydrate function when `connect` succeeds and the API call fails. -/
theorem hydrate_api_error (env : Collaborators QD Conn Query Item Err) (d : QD)
    (h : History QD Conn Query Item Err) (conn : Conn) (e : Err)
    (hc : env.connect d = Except.ok conn)
    (ha : env.GetPrioritizedVulnerability conn
      (env.buildPrioritizedVulnerabilitiesQueryParameter d) = Except.error e) :
    getPrismaPrioritizedVulnerabilities env d h =
      (⟨none, some e⟩,
        h ++ [Event.connect d, Event.buildQuery d,
          Event.log Level.Error "Query ====>>>"
            [LogArg.query (env.buildPrioritizedVulnerabilitiesQueryParameter d)],
          Event.apiCall conn (env.buildPrioritizedVulnerabilitiesQueryParameter d),
          Event.log Level.Error
            "prismacloud_prioritized_vulnerabilitiy.getPrismaPrioritizedVulnerabilities"
            [LogArg.str "api_error", LogArg.err e]]) := by
  simp [getPrismaPrioritizedVulnerabilities, hc, ha, loggerError]

/-- Unfolding of the hydrate function when `connect` and the API call succeed. -/
theorem hydrate_ok (env : Collaborators QD Conn Query Item Err) (d : QD)
    (h : History QD Conn Query Item Err) (conn : Conn) (v : Item)
    (hc : env.connect d = Except.ok conn)
    (ha : env.GetPrioritizedVulnerability conn
      (env.buildPrioritizedVulnerabilitiesQueryParameter d) = Except.ok v) :
    getPrismaPrioritizedVulnerabilities env d h =
      (⟨none, none⟩,
        h ++ [Event.connect d, Event.buildQuery d,
          Event.log Level.Error "Query ====>>>"
            [LogArg.query (env.buildPrioritizedVulnerabilitiesQueryParameter d)],
          Event.apiCall conn (env.buildPrioritizedVulnerabilitiesQueryParameter d),
          Event.streamListItem v]) := by
  simp [getPrismaPrioritizedVulnerabilities, hc, ha, loggerError, StreamListItem]

end HistoryLemmas

/-! ## Error propagation and the success path of the hydrate function -/

section HydrateTheorems

variable {QD Conn Query Item Err : Type}

/-- C1: when `connect` returns an error `e`, the hydrate function returns `(nil, e)`; all
it does is the `connect` call and one log entry, so the history gains no query build, no
API call and no streamed row. -/
theorem connect_error_returns_error (env : Collaborators QD Conn Query Item Err) (d : QD)
    (h : History QD Conn Query Item Err) (e : Err) (hc : env.connect d = Except.error e) :
    (getPrismaPrioritizedVulnerabilities env d h).1 = ⟨none, some e⟩ ∧
    (getPrismaPrioritizedVulnerabilities env d h).2 =
      h ++ [Event.connect d,
        Event.log Level.Error
          "prismacloud_prioritized_vulnerabilitiy.getPrismaPrioritizedVulnerabilities"
          [LogArg.str "connection_error", LogArg.err e]] ∧
    (((getPrismaPrioritizedVulnerabilities env d h).2.drop h.length).all
      (fun ev => !ev.isBuildQuery && !ev.isApiCall && !ev.isStream) = true) ∧
    apiCalls (getPrismaPrioritizedVulnerabilities env d h).2 = apiCalls h ∧
    streamed (getPrismaPrioritizedVulnerabilities env d h).2 = streamed h := by
  rw [hydrate_connect_error env d h e hc]
  refine ⟨rfl, rfl, ?_, ?_, ?_⟩
  · simp [Event.isBuildQuery, Event.isApiCall, Event.isStream]
  · simp [apiCalls_append, apiCalls]
  · simp [streamed_append, streamed]

/-- Instance of C1 at collaborators whose `connect` fails. -/
theorem connect_error_returns_error_witness :
    envConnectFails.connect 7 = Except.error "no credentials" ∧
    (getPrismaPrioritizedVulnerabilities envConnectFails 7 []).1
      = ⟨none, some "no credentials"⟩ ∧
    apiCalls (getPrismaPrioritizedVulnerabilities envConnectFails 7 []).2 = [] ∧
    streamed (getPrismaPrioritizedVulnerabilities envConnectFails 7 []).2 = [] :=
  have t := connect_error_returns_error envConnectFails 7 [] "no credentials" rfl
  ⟨rfl, t.1, t.2.2.2.1, t.2.2.2.2⟩

/-- C2: when `connect` succeeds and `api.GetPrioritizedVulnerability` returns an error
`e`, the hydrate function returns `(nil, e)` and streams no row: the streamed rows are the
ones from before the call. -/
theorem api_error_returns_error (env : Collaborators QD Conn Query Item Err) (d : QD)
    (h : History QD Conn Query Item Err) (conn : Conn) (e : Err)
    (hc : env.connect d = Except.ok conn)
    (ha : env.GetPrioritizedVulnerability conn
      (env.buildPrioritizedVulnerabilitiesQueryParameter d) = Except.error e) :
    (getPrismaPrioritizedVulnerabilities env d h).1 = ⟨none, some e⟩ ∧
    (((getPrismaPrioritizedVulnerabilities env d h).2.drop h.length).all
      (fun ev => !ev.isStream) = true) ∧
    streamed (getPrismaPrioritizedVulnerabilities env d h).2 = streamed h := by
  rw [hydrate_api_error env d h conn e hc ha]
  refine ⟨rfl, ?_, ?_⟩
  · simp [Event.isStream]
  · simp [streamed_append, streamed]

/-- Instance of C2 at collaborators whose API call fails. -/
theorem api_error_returns_error_witness :
    envApiFails.connect 7 = Except.ok 8 ∧
    (getPrismaPrioritizedVulnerabilities envApiFails 7 []).1
      = ⟨none, some "403 Forbidden"⟩ ∧
    streamed (getPrismaPrioritizedVulnerabilities envApiFails 7 []).2 = [] :=
  have t := api_error_returns_error envApiFails 7 [] 8 "403 Forbidden" rfl rfl
  ⟨rfl, t.1, t.2.2⟩

/-- C3: when `connect` returns `conn` and the API, called with `conn` and the query built
from the same query data, returns `v`, the hydrate function returns `(nil, nil)`, makes
exactly one API call, with exactly `conn` and that query, and streams exactly one row,
`v`. -/
theorem success_streams_one_item (env : Collaborators QD Conn Query Item Err) (d : QD)
    (h : History QD Conn Query Item Err) (conn : Conn) (v : Item)
    (hc : env.connect d = Except.ok conn)
    (ha : env.GetPrioritizedVulnerability conn
      (env.buildPrioritizedVulnerabilitiesQueryParameter d) = Except.ok v) :
    (getPrismaPrioritizedVulnerabilities env d h).1 = ⟨none, none⟩ ∧
    apiCalls (getPrismaPrioritizedVulnerabilities env d h).2
      = apiCalls h ++ [(conn, env.buildPrioritizedVulnerabilitiesQueryParameter d)] ∧
    streamed (getPrismaPrioritizedVulnerabilities env d h).2 = streamed h ++ [v] ∧
    (((getPrismaPrioritizedVulnerabilities env d h).2.drop h.length).countP
      (fun ev => ev.isApiCall) = 1) ∧
    (((getPrismaPrioritizedVulnerabilities env d h).2.drop h.length).countP
      (fun ev => ev.isStream) = 1) := by
  rw [hydrate_ok env d h conn v hc ha]
  refine ⟨rfl, ?_, ?_, ?_, ?_⟩
  · simp [apiCalls_append, apiCalls]
  · simp [streamed_append, streamed]
  · simp [List.countP_cons, Event.isApiCall]
  · simp [List.countP_cons, Event.isStream]

/-- Instance of C3 at collaborators that succeed. -/
theorem success_streams_one_item_witness :
    envOk.connect 7 = Except.ok 8 ∧
    (getPrismaPrioritizedVulnerabilities envOk 7 []).1 = ⟨none, none⟩ ∧
    apiCalls (getPrismaPrioritizedVulnerabilities envOk 7 []).2
      = [(8, "asset_type=host&life_cycle=run")] ∧
    streamed (getPrismaPrioritizedVulnerabilities envOk 7 []).2 = [sampleRecord] :=
  have t := success_streams_one_item envOk 7 [] 8 sampleRecord rfl rfl
  ⟨rfl, t.1, t.2.1, t.2.2.1⟩

end HydrateTheorems

/-! ## The query log entry -/

section LogTheorems

variable {QD Conn Query Item Err : Type}

/-- C10: when `connect` succeeds, the hydrate function appends an Error-level log entry
carrying the built query right before the API call, on both outcomes of that call; a
successful run adds exactly one Error-level entry to the log (and streams the row and
returns `(nil, nil)`), a run whose API call fails adds exactly two. -/
theorem query_logged_before_api_call (env : Collaborators QD Conn Query Item Err) (d : QD)
    (h : History QD Conn Query Item Err) (conn : Conn)
    (hc : env.connect d = Except.ok conn) :
    (∃ after, (getPrismaPrioritizedVulnerabilities env d h).2 =
      h ++ [Event.connect d, Event.buildQuery d] ++
        [Event.log Level.Error "Query ====>>>"
          [LogArg.query (env.buildPrioritizedVulnerabilitiesQueryParameter d)],
         Event.apiCall conn (env.buildPrioritizedVulnerabilitiesQueryParameter d)] ++
        after ∧ after.all (fun ev => !ev.isApiCall) = true) ∧
    (match env.GetPrioritizedVulnerability conn
        (env.buildPrioritizedVulnerabilitiesQueryParameter d) with
      | Except.ok v =>
        (getPrismaPrioritizedVulnerabilities env d h).1 = ⟨none, none⟩ ∧
        streamed (getPrismaPrioritizedVulnerabilities env d h).2 = streamed h ++ [v] ∧
        errorLogCount (getPrismaPrioritizedVulnerabilities env d h).2
          = errorLogCount h + 1
      | Except.error e =>
        (getPrismaPrioritizedVulnerabilities env d h).1 = ⟨none, some e⟩ ∧
        errorLogCount (getPrismaPrioritizedVulnerabilities env d h).2
          = errorLogCount h + 2) := by
  cases ha : env.GetPrioritizedVulnerability conn
      (env.buildPrioritizedVulnerabilitiesQueryParameter d) with
  | error e =>
    rw [hydrate_api_error env d h conn e hc ha]
    refine ⟨⟨[Event.log Level.Error
        "prismacloud_prioritized_vulnerabilitiy.getPrismaPrioritizedVulnerabilities"
        [LogArg.str "api_error", LogArg.err e]], by simp, ?_⟩, rfl, ?_⟩
    · simp [Event.isApiCall]
    · simp [errorLogCount, List.countP_cons, Event.isErrorLog]
  | ok v =>
    rw [hydrate_ok env d h conn v hc ha]
    refine ⟨⟨[Event.streamListItem v], by simp, ?_⟩, rfl, ?_, ?_⟩
    · simp [Event.isApiCall]
    · simp [streamed_append, streamed]
    · simp [errorLogCount, List.countP_cons, Event.isErrorLog]

end LogTheorems

/-- Instance of C10 from the empty history: one Error-level entry on a successful run,
two on a run whose API call fails. -/
theorem query_logged_before_api_call_witness :
    envOk.connect 7 = Except.ok 8 ∧
    (getPrismaPrioritizedVulnerabilities envOk 7 []).1 = ⟨none, none⟩ ∧
    streamed (getPrismaPrioritizedVulnerabilities envOk 7 []).2 = [sampleRecord] ∧
    errorLogCount (getPrismaPrioritizedVulnerabilities envOk 7 []).2 = 1 ∧
    envApiFails.connect 7 = Except.ok 8 ∧
    (getPrismaPrioritizedVulnerabilities envApiFails 7 []).1
      = ⟨none, some "403 Forbidden"⟩ ∧
    errorLogCount (getPrismaPrioritizedVulnerabilities envApiFails 7 []).2 = 2 :=
  ⟨rfl, (query_logged_before_api_call envOk 7 [] 8 rfl).2.1,
    (query_logged_before_api_call envOk 7 [] 8 rfl).2.2.1,
    (query_logged_before_api_call envOk 7 [] 8 rfl).2.2.2,
    rfl, (query_logged_before_api_call envApiFails 7 [] 8 rfl).2⟩

/-! ## The descriptor as configuration data -/

section DescriptorTheorems

variable {QD Conn Query Item Err : Type}

/-- C4: the descriptor has a list config; its hydrate is
`getPrismaPrioritizedVulnerabilities`, its key columns are exactly `asset_type` and
`life_cycle` in that order, each Required and each with exact cache matching. -/
theorem list_config_key_columns (env : Collaborators QD Conn Query Item Err) :
    ∃ lc, (tablePrismaPrioritizedVulnerabilitiy env).List = some lc ∧
      lc.Hydrate = getPrismaPrioritizedVulnerabilities env ∧
      lc.KeyColumns.length = 2 ∧
      lc.KeyColumns.map (fun kc => kc.Name) = ["asset_type", "life_cycle"] ∧
      lc.KeyColumns.all (fun kc => kc.Require = Require.Required) = true ∧
      lc.KeyColumns.all (fun kc => kc.Require != Require.Optional) = true ∧
      lc.KeyColumns.all (fun kc => kc.CacheMatch = CacheMatch.CacheMatchExact) = true :=
  ⟨⟨getPrismaPrioritizedVulnerabilities env, tableKeyColumns⟩, rfl, rfl,
    (by decide : tableKeyColumns.length = 2),
    (by decide : tableKeyColumns.map (fun kc => kc.Name) = ["asset_type", "life_cycle"]),
    (by decide : tableKeyColumns.all (fun kc => kc.Require = Require.Required) = true),
    (by decide : tableKeyColumns.all (fun kc => kc.Require != Require.Optional) = true),
    (by decide :
      tableKeyColumns.all (fun kc => kc.CacheMatch = CacheMatch.CacheMatchExact) = true)⟩

/-- C5: for each of the five counter categories the column `<stem>_vulnerability_count` is
the one INT column of that name with transform `FromField "<Field>.VulnerabilityCount"`,
and `<stem>_asset_count` likewise with `FromField "<Field>.AssetCount"`; the ten counter
columns read ten pairwise distinct field paths; and each counter column is named by the
snake case of its field path with the dot removed. -/
theorem counter_columns_mapping (env : Collaborators QD Conn Query Item Err) :
    (counterCategories.all (fun p =>
      decide ((columnsNamed (tablePrismaPrioritizedVulnerabilitiy env).Columns
          (p.1 ++ "_vulnerability_count")).map (fun c => (c.Type_, c.Transform))
        = [(ColumnType.INT, some (transform.FromField (p.2 ++ ".VulnerabilityCount")))]) &&
      decide ((columnsNamed (tablePrismaPrioritizedVulnerabilitiy env).Columns
          (p.1 ++ "_asset_count")).map (fun c => (c.Type_, c.Transform))
        = [(ColumnType.INT, some (transform.FromField (p.2 ++ ".AssetCount")))])) = true) ∧
    counterColumns = (tablePrismaPrioritizedVulnerabilitiy env).Columns.drop 4 ∧
    counterColumns.length = 10 ∧
    counterColumns.map (fun c => c.Name) = counterCategories.flatMap (fun p =>
      [p.1 ++ "_vulnerability_count", p.1 ++ "_asset_count"]) ∧
    (counterColumns.filterMap (fun c => c.fieldPath)).length = 10 ∧
    (counterColumns.filterMap (fun c => c.fieldPath)).Nodup ∧
    counterColumns.all (fun c =>
      decide (c.fieldPath.map snakeCaseOfPath = some c.Name)) = true := by
  have hcols : (tablePrismaPrioritizedVulnerabilitiy env).Columns = tableColumns := rfl
  rw [hcols]
  decide

/-- C6: `last_updated_date_time` is the one column of that name, of type TIMESTAMP, with
the chain FromField "LastUpdatedDateTime", NullIfZeroValue, UnixMsToTimestamp in that
order. When NullIfZeroValue maps the integer zero to null and leaves other integers
unchanged, and UnixMsToTimestamp maps null to null and an integer `m` to the instant `m`
milliseconds after the epoch, the chain yields null on a record whose
`LastUpdatedDateTime` is 0 and the instant `LastUpdatedDateTime` milliseconds after the
epoch on any other record. -/
theorem last_updated_column (env : Collaborators QD Conn Query Item Err)
    (fs : TransformFuncs)
    (hzero : fs.NullIfZeroValue (Value.int 0) = Value.null)
    (hkeep : ∀ m : Int, m ≠ 0 → fs.NullIfZeroValue (Value.int m) = Value.int m)
    (hnull : fs.UnixMsToTimestamp Value.null = Value.null)
    (hint : ∀ m : Int, fs.UnixMsToTimestamp (Value.int m) = Value.timestamp m) :
    ∃ t, (columnsNamed (tablePrismaPrioritizedVulnerabilitiy env).Columns
        "last_updated_date_time").map (fun c => (c.Type_, c.Transform))
        = [(ColumnType.TIMESTAMP, some t)] ∧
      t.Transforms = [TransformCall.FieldValue "LastUpdatedDateTime",
        TransformCall.NullIfZeroValue, TransformCall.UnixMsToTimestamp] ∧
      ∀ (item : PrioritizedVulnerability) (quals : String → Value),
        t.Execute fs item quals =
          some (if item.LastUpdatedDateTime = 0 then Value.null
            else Value.timestamp item.LastUpdatedDateTime) := by
  have hcols : (tablePrismaPrioritizedVulnerabilitiy env).Columns = tableColumns := rfl
  rw [hcols]
  refine ⟨⟨[TransformCall.FieldValue "LastUpdatedDateTime",
    TransformCall.NullIfZeroValue, TransformCall.UnixMsToTimestamp]⟩, by decide, rfl, ?_⟩
  intro item quals
  have hfield : item.field "LastUpdatedDateTime"
      = some (Value.int item.LastUpdatedDateTime) := rfl
  by_cases hz : item.LastUpdatedDateTime = 0
  · simp [ColumnTransforms.Execute, executeCalls, TransformCall.Execute, hfield, hz,
      hzero, hnull]
  · simp [ColumnTransforms.Execute, executeCalls, TransformCall.Execute, hfield, hz,
      hkeep _ hz, hint]

/-- Instance of C6 at the sample transform functions: the sample record, last updated at
1700000000000 ms, gives that instant, and the same record with a zero time gives null. -/
theorem last_updated_column_witness :
    sampleTransformFuncs.NullIfZeroValue (Value.int 0) = Value.null ∧
    sampleTransformFuncs.UnixMsToTimestamp Value.null = Value.null ∧
    ∃ t : ColumnTransforms,
      (columnsNamed tableColumns "last_updated_date_time").map (fun c => c.Transform)
        = [some t] ∧
      t.Execute sampleTransformFuncs sampleRecord (fun _ => Value.null)
        = some (Value.timestamp 1700000000000) ∧
      t.Execute sampleTransformFuncs { sampleRecord with LastUpdatedDateTime := 0 }
        (fun _ => Value.null) = some Value.null := by
  obtain ⟨t, hcol, hchain, hval⟩ := last_updated_column envOk sampleTransformFuncs rfl
    (fun m hm => by simp [sampleTransformFuncs, hm]) rfl (fun _ => rfl)
  have ht : t = ⟨[TransformCall.FieldValue "LastUpdatedDateTime",
      TransformCall.NullIfZeroValue, TransformCall.UnixMsToTimestamp]⟩ := by
    cases t; simpa using hchain
  refine ⟨rfl, rfl, t, ?_, ?_, ?_⟩
  · subst ht; decide
  · rw [hval]; simp [sampleRecord]
  · rw [hval]; simp

/-- C7: each key column of the list config names exactly one output column, of type
STRING, whose transform is `FromQual` of that same name; the value of that column in a
row is the query's qualifier of that name, whatever the response record; and the columns
whose transform is `FromQual` are exactly the key columns. -/
theorem key_columns_read_quals (env : Collaborators QD Conn Query Item Err) :
    ∃ lc, (tablePrismaPrioritizedVulnerabilitiy env).List = some lc ∧
      lc.KeyColumns.map (fun kc => kc.Name) = ["asset_type", "life_cycle"] ∧
      lc.KeyColumns.all (fun kc =>
        decide ((columnsNamed (tablePrismaPrioritizedVulnerabilitiy env).Columns
            kc.Name).map (fun c => (c.Name, c.Type_, c.Transform))
          = [(kc.Name, ColumnType.STRING, some (transform.FromQual kc.Name))])) = true ∧
      ((tablePrismaPrioritizedVulnerabilitiy env).Columns.filter
          (fun c => c.isFromQual)).map (fun c => c.Name)
        = lc.KeyColumns.map (fun kc => kc.Name) ∧
      ∀ (fs : TransformFuncs) (item : PrioritizedVulnerability) (quals : String → Value),
        lc.KeyColumns.map (fun kc =>
          (columnsNamed (tablePrismaPrioritizedVulnerabilitiy env).Columns
            kc.Name).map (fun c => c.value fs item quals))
        = lc.KeyColumns.map (fun kc => [some (quals kc.Name)]) := by
  refine ⟨⟨getPrismaPrioritizedVulnerabilities env, tableKeyColumns⟩, rfl, ?_⟩
  have hcols : (tablePrismaPrioritizedVulnerabilitiy env).Columns = tableColumns := rfl
  rw [hcols]
  show tableKeyColumns.map (fun kc => kc.Name) = ["asset_type", "life_cycle"] ∧
    tableKeyColumns.all (fun kc =>
      decide ((columnsNamed tableColumns kc.Name).map (fun c => (c.Name, c.Type_, c.Transform))
        = [(kc.Name, ColumnType.STRING, some (transform.FromQual kc.Name))])) = true ∧
    (tableColumns.filter (fun c => c.isFromQual)).map (fun c => c.Name)
      = tableKeyColumns.map (fun kc => kc.Name) ∧
    ∀ (fs : TransformFuncs) (item : PrioritizedVulnerability) (quals : String → Value),
      tableKeyColumns.map (fun kc =>
        (columnsNamed tableColumns kc.Name).map (fun c => c.value fs item quals))
      = tableKeyColumns.map (fun kc => [some (quals kc.Name)])
  refine ⟨by decide, by decide, by decide, ?_⟩
  intro fs item quals
  have h1 : columnsNamed tableColumns "asset_type"
      = [⟨"asset_type", "The type of asset. Possible values are: iac, package, deployedImage, serverlessFunction, host, registryImage, vmImage.", ColumnType.STRING,
          some (transform.FromQual "asset_type")⟩] := by decide
  have h2 : columnsNamed tableColumns "life_cycle"
      = [⟨"life_cycle", "The life cycle stage of the asset. Possible values are: code, build, deploy, run.", ColumnType.STRING,
          some (transform.FromQual "life_cycle")⟩] := by decide
  simp only [tableKeyColumns, List.map, h1, h2]
  rfl

/-- C8: of the 14 columns, `total_vulnerabilities` (type INT) is the only one without a
transform: it names no response field, each of the other 13 columns starts its chain with
`FromQual` or `FromField`, and the descriptor sets no table-level default transform, so
whatever fills `total_vulnerabilities` is decided outside the descriptor. -/
theorem total_vulnerabilities_only_column_without_transform
    (env : Collaborators QD Conn Query Item Err) :
    (tablePrismaPrioritizedVulnerabilitiy env).Columns.length = 14 ∧
    ((tablePrismaPrioritizedVulnerabilitiy env).Columns.filter
        (fun c => c.Transform.isNone)).map (fun c => c.Name) = ["total_vulnerabilities"] ∧
    (columnsNamed (tablePrismaPrioritizedVulnerabilitiy env).Columns
        "total_vulnerabilities").map (fun c => (c.Type_, c.Transform, c.fieldPath))
      = [(ColumnType.INT, none, none)] ∧
    ((tablePrismaPrioritizedVulnerabilitiy env).Columns.filter
        (fun c => c.isFromQual || c.isFromField)).length = 13 ∧
    (tablePrismaPrioritizedVulnerabilitiy env).Columns.all (fun c =>
        decide (c.Name = "total_vulnerabilities") != (c.isFromQual || c.isFromField))
      = true ∧
    (tablePrismaPrioritizedVulnerabilitiy env).DefaultTransform = none ∧
    ∀ (fs : TransformFuncs) (item : PrioritizedVulnerability) (quals : String → Value),
      (columnsNamed (tablePrismaPrioritizedVulnerabilitiy env).Columns
        "total_vulnerabilities").map (fun c => c.value fs item quals) = [none] := by
  have hcols : (tablePrismaPrioritizedVulnerabilitiy env).Columns = tableColumns := rfl
  rw [hcols]
  refine ⟨by decide, by decide, by decide, by decide, by decide, rfl, ?_⟩
  intro fs item quals
  have h : columnsNamed tableColumns "total_vulnerabilities"
      = [⟨"total_vulnerabilities", "The total number of vulnerabilities.",
          ColumnType.INT, none⟩] := by decide
  rw [h]
  rfl

/-- C9: the descriptor has exactly 14 columns with pairwise distinct names; the STRING
columns are exactly `asset_type` and `life_cycle`, the only TIMESTAMP column is
`last_updated_date_time`, and the remaining 11 columns are INT, so every column has one of
these three types. -/
theorem columns_flat_schema (env : Collaborators QD Conn Query Item Err) :
    (tablePrismaPrioritizedVulnerabilitiy env).Columns.length = 14 ∧
    ((tablePrismaPrioritizedVulnerabilitiy env).Columns.map (fun c => c.Name)).Nodup ∧
    ((tablePrismaPrioritizedVulnerabilitiy env).Columns.filter
        (fun c => c.Type_ = ColumnType.STRING)).map (fun c => c.Name)
      = ["asset_type", "life_cycle"] ∧
    ((tablePrismaPrioritizedVulnerabilitiy env).Columns.filter
        (fun c => c.Type_ = ColumnType.TIMESTAMP)).map (fun c => c.Name)
      = ["last_updated_date_time"] ∧
    ((tablePrismaPrioritizedVulnerabilitiy env).Columns.filter
        (fun c => c.Type_ = ColumnType.INT)).length = 11 ∧
    (tablePrismaPrioritizedVulnerabilitiy env).Columns.all (fun c =>
        c.Type_ = ColumnType.STRING || c.Type_ = ColumnType.TIMESTAMP ||
          c.Type_ = ColumnType.INT) = true := by
  have hcols : (tablePrismaPrioritizedVulnerabilitiy env).Columns = tableColumns := rfl
  rw [hcols]
  decide

end DescriptorTheorems

end Prismacloud
